import Mathlib

/-!
# Verification of the Property Evaluation model (`src/app.py`)

Shallow embedding of the computational core of `app.py`:

* the unit-mix parser built around `units_by_type_dict` (app.py lines 88-95),
* the census median-income fetch `get_census_data` (lines 14-29),
* the Zillow rent stub `get_zillow_rent_zestimate` (lines 31-33),
* the metric formulas `total_cost`, `noi`, `profit`, `roi` (lines 104-107).

Python strings are modelled as `List Char`; Python exceptions as an explicit
`Except PyError` result; Streamlit warning/error side effects as accumulated
lists of messages.  Machine arithmetic is modelled with `Int`/`Rat`: the six
metric inputs are `st.number_input` integers, and the float division in `roi`
is modelled as exact rational division.
-/

set_option autoImplicit false

namespace PropertyEval

/-- Python strings, modelled as lists of characters. -/
abbrev PyStr := List Char

/-- Python exception classes that the modelled code can raise uncaught. -/
inductive PyError where
  | valueError
  | indexError
  | typeError
  | keyError
  deriving DecidableEq, Repr

/-- Python `s.split(sep)` for a single-character separator `sep`:
`"".split(",") = [""]`, `"a,b".split(",") = ["a","b"]`, `",".split(",") = ["",""]`. -/
def splitOn (sep : Char) : PyStr → List PyStr
  | [] => [[]]
  | c :: cs =>
    let rest := splitOn sep cs
    if c = sep then [] :: rest
    else
      match rest with
      | r :: rs => (c :: r) :: rs
      | [] => [[c]]

/-- The whitespace characters removed by Python `str.strip()` (ASCII subset). -/
def pyIsSpace (c : Char) : Bool :=
  c == ' ' || c == '\t' || c == '\n' || c == '\r' || c == '\x0b' || c == '\x0c'

/-- Python `str.strip()`: remove leading and trailing whitespace. -/
def strip (s : PyStr) : PyStr :=
  ((s.dropWhile pyIsSpace).reverse.dropWhile pyIsSpace).reverse

/-- One step of the digit-group validator for Python `int()` literals: the state
records whether the previous character was a digit; `none` means already invalid. -/
def udStep (st : Option Bool) (c : Char) : Option Bool :=
  match st with
  | none => none
  | some lastDigit =>
    if c.isDigit then some true
    else if c == '_' && lastDigit then some false
    else none

/-- Whether a character list matches Python's digit-part grammar for `int()`:
`digit+ ( _ digit+ )*` (ASCII digits; single underscores only between digits). -/
def validDigits (cs : PyStr) : Bool :=
  cs.foldl udStep (some false) == some true

/-- Numeric value of a digit string, ignoring underscores. -/
def digitsVal (cs : PyStr) : Nat :=
  (cs.filter (fun c => !(c == '_'))).foldl (fun a c => a * 10 + (c.toNat - 48)) 0

/-- Python `int(s)` over a string: strip whitespace, optional single sign, then a
digit group per `validDigits`; `none` models `ValueError`.  (Restricted to ASCII
digits; Python also accepts Unicode decimal digits, which no claim exercises.) -/
def pyInt (s : PyStr) : Option Int :=
  match strip s with
  | '+' :: rest => if validDigits rest then some (digitsVal rest : Int) else none
  | '-' :: rest => if validDigits rest then some (-(digitsVal rest : Int)) else none
  | rest => if validDigits rest then some ((digitsVal rest : Int)) else none

/-- A Python `dict` with string keys and int values, as an ordered association
list (insertion order preserved, as in CPython). -/
abbrev UnitDict := List (PyStr × Int)

/-- Python `d[k] = v`: overwrite in place if `k` is present, else append. -/
def dictInsert (d : UnitDict) (k : PyStr) (v : Int) : UnitDict :=
  if d.any (fun p => p.1 = k) then
    d.map (fun p => if p.1 = k then (k, v) else p)
  else d ++ [(k, v)]

/-- Python `d.get(k)`: value of the first (unique) entry with key `k`. -/
def dictLookup (d : UnitDict) (k : PyStr) : Option Int :=
  (d.find? (fun p => p.1 = k)).map Prod.snd

/-- The warning text of the f-string "Invalid value for <stripped key>:
<stripped val>" emitted by `st.warning` at app.py line 95. -/
def mkWarning (k v : PyStr) : PyStr :=
  "Invalid value for ".toList ++ k ++ (':' :: ' ' :: v)

/-- Parser state: the dict built so far and the warnings surfaced so far. -/
abbrev ParseState := UnitDict × List PyStr

/-- One iteration of the loop at app.py lines 89-95 on token `item`:

* `if ":" in item` — a token without `:` is skipped silently;
* `key, val = item.split(":")` — NOTE: this two-element unpacking is OUTSIDE
  the `try` block, so a token with two or more `:` raises an uncaught
  `ValueError`;
* `try: units_by_type_dict[key.strip()] = int(val.strip()) except ValueError:`
  `st.warning(...)` — a malformed count is caught and surfaced as a warning. -/
def processToken (st : ParseState) (item : PyStr) : Except PyError ParseState :=
  if ':' ∈ item then
    match splitOn ':' item with
    | [key, val] =>
      match pyInt (strip val) with
      | some n => .ok (dictInsert st.1 (strip key) n, st.2)
      | none => .ok (st.1, st.2 ++ [mkWarning (strip key) (strip val)])
    | _ => .error .valueError
  else .ok st

/-- The loop over all tokens, threading the state and stopping at an uncaught
exception. -/
def processTokens (st : ParseState) : List PyStr → Except PyError ParseState
  | [] => .ok st
  | item :: items => do
    let st' ← processToken st item
    processTokens st' items

/-- `units_by_type_dict` as built at app.py lines 86-95 from the raw text of
the "Units by Type" field: split on `","`, then run the token loop starting
from the empty dict, collecting `st.warning` messages. -/
def units_by_type_dict (text : PyStr) : Except PyError ParseState :=
  processTokens ([], []) (splitOn ',' text)

/-- The count a single token contributes for label `l`: `some n` exactly when
the token splits as `key:val` with `strip key = l` and `val` parsing as the
integer `n`; `none` otherwise. -/
def tokenCount (l : PyStr) (item : PyStr) : Option Int :=
  match splitOn ':' item with
  | [key, val] => if strip key = l then pyInt (strip val) else none
  | _ => none

/-- The count of the last token in the list that carries label `l` with a
valid integer count (`none` when no token does). -/
def lastCount (l : PyStr) : List PyStr → Option Int
  | [] => none
  | item :: items =>
    match lastCount l items with
    | some v => some v
    | none => tokenCount l item

/-- A parsed JSON value, as returned by `response.json()`. -/
inductive Json where
  | null
  | bool (b : Bool)
  | num (q : ℚ)
  | str (s : String)
  | arr (xs : List Json)
  | obj (kvs : List (String × Json))

/-- Python subscripting `j[i]` with a non-negative int index `i`, for each JSON
shape: list indexing (`IndexError` out of range), string indexing (a one-charac-
ter string, `IndexError` out of range), dict lookup (`KeyError`: an int key is
never among the string keys of a JSON object), `TypeError` otherwise. -/
def pyIndex (j : Json) (i : Nat) : Except PyError Json :=
  match j with
  | .arr xs =>
    match xs.get? i with
    | some x => .ok x
    | none => .error .indexError
  | .str s =>
    match s.toList.get? i with
    | some c => .ok (.str (String.mk [c]))
    | none => .error .indexError
  | .obj _ => .error .keyError
  | _ => .error .typeError

/-- The outcome of `requests.get(...)` as observed by the caller. -/
inductive HttpOutcome where
  | requestError
  /-- A response arrived with the given status code; `body` is the parsed JSON
  value, or `none` when the body is not valid JSON. -/
  | response (status : Nat) (body : Option Json)

/-- `get_census_data` (app.py lines 14-29), abstracted over the transport
outcome of its single `requests.get`:

* a network error raises `requests.RequestException` — caught, `st.error`
  surfaced, and the sentinel string `"N/A"` returned;
* `response.raise_for_status()` raises `requests.HTTPError` (a subclass of
  `RequestException`) exactly when `400 <= status < 600` — caught as above;
* `response.json()` on a non-JSON body raises
  `requests.exceptions.JSONDecodeError`, a `RequestException` subclass in
  requests >= 2.27 — caught as above;
* otherwise `data[1][1]` is returned; the subscripting is NOT protected by the
  `except requests.RequestException` clause, so its `IndexError` / `TypeError`
  / `KeyError` propagates uncaught. -/
def get_census_data (outcome : HttpOutcome) : Except PyError Json :=
  match outcome with
  | .requestError => .ok (.str "N/A")
  | .response status body =>
    if 400 ≤ status ∧ status < 600 then .ok (.str "N/A")
    else
      match body with
      | none => .ok (.str "N/A")
      | some data => do
        let row ← pyIndex data 1
        pyIndex row 1

/-- The notice surfaced by `st.warning` at app.py line 32. -/
def zillowNotice : String :=
  "Zillow API integration requires approval and setup. Returning sample value."

/-- `get_zillow_rent_zestimate` (app.py lines 31-33): ignores both arguments,
performs no I/O (it takes no transport outcome: the body contains no
`requests` call), surfaces one notice and returns the constant `2500`. -/
def get_zillow_rent_zestimate (property_address zillow_api_key : String) :
    Int × List String :=
  (2500, [zillowNotice])

/-- `total_cost = (bldg_sqft * cost_per_sqft) + conversion_costs`
(app.py line 104).  All three inputs are `st.number_input` integers. -/
def total_cost (bldg_sqft cost_per_sqft conversion_costs : Int) : Int :=
  bldg_sqft * cost_per_sqft + conversion_costs

/-- `noi = rental_income - operating_expenses` (app.py line 105). -/
def noi (rental_income operating_expenses : Int) : Int :=
  rental_income - operating_expenses

/-- `profit = condo_sellout - total_cost` (app.py line 106). -/
def profit (condo_sellout total_cost : Int) : Int :=
  condo_sellout - total_cost

/-- `roi = (profit / total_cost) * 100 if total_cost else 0` (app.py line 107):
`if total_cost` is Python truthiness, i.e. `total_cost != 0`.  Python's float
division is modelled as exact rational division. -/
def roi (profit total_cost : Int) : ℚ :=
  if total_cost ≠ 0 then ((profit : ℚ) / (total_cost : ℚ)) * 100 else 0

/-- The full ambient widget state feeding an "Evaluate Property" run: every
input the script reads, in source order (app.py lines 40-101). -/
structure Inputs where
  census_api_key : String
  zillow_api_key : String
  discovery : String
  validation : String
  creation : String
  relationship : String
  zoning : String
  permitting : String
  gov_programs : List String
  improvement_districts : List String
  cost_per_sqft : Int
  demographics : String
  avg_income : Json
  avg_dwelling_price_rent : Int
  property_address : String
  avg_dwelling_price_own : Int
  occupancy_rates : Int
  net_migration : String
  bldg_sqft : Int
  units_by_type : UnitDict
  commercial_units : Int
  conversion_costs : Int
  rental_income : Int
  operating_expenses : Int
  condo_sellout : Int

/-- The metric record produced by the "Evaluate Property" branch
(app.py lines 103-113). -/
structure EvaluationResult where
  total_cost : Int
  noi : Int
  profit : Int
  roi : ℚ
  deriving DecidableEq, Repr

/-- The computation at app.py lines 104-107, reading from the ambient state. -/
def evaluate (i : Inputs) : EvaluationResult :=
  let tc := total_cost i.bldg_sqft i.cost_per_sqft i.conversion_costs
  { total_cost := tc
    noi := noi i.rental_income i.operating_expenses
    profit := profit i.condo_sellout tc
    roi := roi (profit i.condo_sellout tc) tc }

/-! ## Helper lemmas -/

/-- `split` produces one more piece than there are separators. -/
theorem splitOn_length (sep : Char) (s : PyStr) :
    (splitOn sep s).length = s.count sep + 1 := by
  induction s with
  | nil => simp [splitOn]
  | cons c cs ih =>
    by_cases h : c = sep
    · have hu : splitOn sep (c :: cs) = [] :: splitOn sep cs := by
        simp [splitOn, h]
      rw [hu, List.length_cons, ih, List.count_cons]
      simp [h]
    · cases hr : splitOn sep cs with
      | nil => rw [hr] at ih; simp at ih
      | cons r rs =>
        have hu : splitOn sep (c :: cs) = (c :: r) :: rs := by
          simp [splitOn, h, hr]
        rw [hr, List.length_cons] at ih
        rw [hu, List.length_cons, List.count_cons]
        have hcb : ¬ sep = c := fun hh => h hh.symm
        simp [h, hcb]
        omega

/-- Unfolding `dictInsert` over a cons cell. -/
theorem dictInsert_cons (p : PyStr × Int) (d : UnitDict) (k : PyStr)
    (v : Int) :
    dictInsert (p :: d) k v =
      if p.1 = k then
        (k, v) :: d.map (fun q => if q.1 = k then (k, v) else q)
      else p :: dictInsert d k v := by
  by_cases h : p.1 = k
  · simp [dictInsert, List.any_cons, h]
  · by_cases ha : d.any (fun q => decide (q.1 = k))
    · simp [dictInsert, List.any_cons, h, ha]
    · simp [dictInsert, List.any_cons, h, ha]

/-- Unfolding `dictLookup` over a cons cell. -/
theorem dictLookup_cons (p : PyStr × Int) (d : UnitDict) (k : PyStr) :
    dictLookup (p :: d) k = if p.1 = k then some p.2 else dictLookup d k := by
  by_cases h : p.1 = k <;> simp [dictLookup, List.find?_cons, h]

/-- Replacing every key-`k` entry does not change lookups of other keys. -/
theorem dictLookup_map_ne (d : UnitDict) (k l : PyStr) (v : Int)
    (hne : l ≠ k) :
    dictLookup (d.map (fun q => if q.1 = k then (k, v) else q)) l =
      dictLookup d l := by
  induction d with
  | nil => simp [dictLookup]
  | cons p d ih =>
    rw [List.map_cons]
    by_cases h : p.1 = k
    · rw [if_pos h, dictLookup_cons, dictLookup_cons,
        if_neg (fun hh : (k, v).1 = l => hne hh.symm),
        if_neg (show ¬ p.1 = l by rw [h]; exact fun hh => hne hh.symm)]
      exact ih
    · rw [if_neg h, dictLookup_cons, dictLookup_cons]
      by_cases hl : p.1 = l
      · rw [if_pos hl, if_pos hl]
      · rw [if_neg hl, if_neg hl]
        exact ih

/-- Inserting key `k` makes lookup of `k` return the inserted value. -/
theorem dictLookup_dictInsert_self (d : UnitDict) (k : PyStr) (v : Int) :
    dictLookup (dictInsert d k v) k = some v := by
  induction d with
  | nil => simp [dictInsert, dictLookup]
  | cons p d ih =>
    rw [dictInsert_cons]
    by_cases h : p.1 = k
    · rw [if_pos h, dictLookup_cons, if_pos rfl]
    · rw [if_neg h, dictLookup_cons, if_neg h]
      exact ih

/-- Inserting key `k` leaves lookup of any other key unchanged. -/
theorem dictLookup_dictInsert_ne (d : UnitDict) (k l : PyStr) (v : Int)
    (hne : l ≠ k) :
    dictLookup (dictInsert d k v) l = dictLookup d l := by
  induction d with
  | nil => simp [dictInsert, dictLookup, Ne.symm hne]
  | cons p d ih =>
    rw [dictInsert_cons]
    by_cases h : p.1 = k
    · rw [if_pos h, dictLookup_cons, if_neg (fun hh : (k, v).1 = l => hne hh.symm),
        dictLookup_cons, if_neg (show ¬ p.1 = l by rw [h]; exact fun hh => hne hh.symm)]
      exact dictLookup_map_ne d k l v hne
    · rw [if_neg h, dictLookup_cons, dictLookup_cons]
      by_cases hl : p.1 = l
      · rw [if_pos hl, if_pos hl]
      · rw [if_neg hl, if_neg hl]
        exact ih

/-- A token without a separator is skipped, leaving the state untouched. -/
theorem processToken_no_colon (st : ParseState) (item : PyStr)
    (h : ':' ∉ item) : processToken st item = .ok st := by
  simp [processToken, h]

/-- A token that splits in exactly two parts never raises: it either inserts
the trimmed key with the parsed count, or appends one warning. -/
theorem processToken_two_parts (st : ParseState) (item key val : PyStr)
    (h : splitOn ':' item = [key, val]) :
    processToken st item =
      match pyInt (strip val) with
      | some n => .ok (dictInsert st.1 (strip key) n, st.2)
      | none => .ok (st.1, st.2 ++ [mkWarning (strip key) (strip val)]) := by
  have hmem : ':' ∈ item := by
    by_contra hmem
    have h0 : item.count ':' = 0 := List.count_eq_zero.mpr hmem
    have := splitOn_length ':' item
    rw [h, h0] at this
    simp at this
  simp [processToken, hmem, h]

/-- A token with two or more separators raises an uncaught `ValueError` from
the two-element unpacking `key, val = item.split(":")`. -/
theorem processToken_multi_colon (st : ParseState) (item : PyStr)
    (h : 2 ≤ item.count ':') :
    processToken st item = .error .valueError := by
  have hmem : ':' ∈ item := by
    rw [← List.count_pos_iff]
    omega
  have hlen : 3 ≤ (splitOn ':' item).length := by
    rw [splitOn_length]
    omega
  match hs : splitOn ':' item with
  | [] => rw [hs] at hlen; simp at hlen
  | [a] => rw [hs] at hlen; simp at hlen
  | [a, b] => rw [hs] at hlen; simp at hlen
  | a :: b :: c :: l => simp [processToken, hmem, hs]

/-- Unfolding one step of the token loop. -/
theorem processTokens_cons (st : ParseState) (item : PyStr)
    (items : List PyStr) :
    processTokens st (item :: items) =
      match processToken st item with
      | .ok st' => processTokens st' items
      | .error e => .error e := by
  cases h : processToken st item with
  | ok st₁ => simp only [processTokens, h]; rfl
  | error e => simp only [processTokens, h]; rfl

/-- If every token has at most one separator, the whole loop completes without
an exception. -/
theorem processTokens_ok (items : List PyStr) (st : ParseState)
    (h : ∀ item ∈ items, item.count ':' ≤ 1) :
    ∃ st', processTokens st items = .ok st' := by
  induction items generalizing st with
  | nil => exact ⟨st, rfl⟩
  | cons item items ih =>
    have hitem := h item (List.mem_cons_self item items)
    have hrest : ∀ i ∈ items, i.count ':' ≤ 1 := fun i hi =>
      h i (List.mem_cons_of_mem item hi)
    by_cases hmem : ':' ∈ item
    · have h1 : item.count ':' = 1 := by
        have := List.count_pos_iff.mpr hmem
        omega
      have hlen : (splitOn ':' item).length = 2 := by rw [splitOn_length]; omega
      match hs : splitOn ':' item with
      | [] => rw [hs] at hlen; simp at hlen
      | [a] => rw [hs] at hlen; simp at hlen
      | a :: b :: c :: l => rw [hs] at hlen; simp at hlen
      | [key, val] =>
        cases hp : pyInt (strip val) with
        | some n =>
          obtain ⟨st', hst'⟩ := ih (dictInsert st.1 (strip key) n, st.2) hrest
          refine ⟨st', ?_⟩
          rw [processTokens_cons, processToken_two_parts st item key val hs, hp]
          exact hst'
        | none =>
          obtain ⟨st', hst'⟩ :=
            ih (st.1, st.2 ++ [mkWarning (strip key) (strip val)]) hrest
          refine ⟨st', ?_⟩
          rw [processTokens_cons, processToken_two_parts st item key val hs, hp]
          exact hst'
    · obtain ⟨st', hst'⟩ := ih st hrest
      refine ⟨st', ?_⟩
      rw [processTokens_cons, processToken_no_colon st item hmem]
      exact hst'

/-- Effect of one token on the final lookup of label `l`. -/
theorem processToken_lookup (st st' : ParseState) (item : PyStr) (l : PyStr)
    (h : processToken st item = .ok st') :
    dictLookup st'.1 l =
      match tokenCount l item with
      | some v => some v
      | none => dictLookup st.1 l := by
  by_cases hmem : ':' ∈ item
  · have hpos : 1 ≤ item.count ':' := List.count_pos_iff.mpr hmem
    by_cases h2 : 2 ≤ item.count ':'
    · rw [processToken_multi_colon st item h2] at h
      exact absurd h (by simp)
    · have hlen : (splitOn ':' item).length = 2 := by rw [splitOn_length]; omega
      match hs : splitOn ':' item with
      | [] => rw [hs] at hlen; simp at hlen
      | [a] => rw [hs] at hlen; simp at hlen
      | a :: b :: c :: ll => rw [hs] at hlen; simp at hlen
      | [key, val] =>
        rw [processToken_two_parts st item key val hs] at h
        unfold tokenCount
        rw [hs]
        cases hp : pyInt (strip val) with
        | none =>
          rw [hp] at h
          simp only [Except.ok.injEq] at h
          subst h
          simp [hp]
        | some n =>
          rw [hp] at h
          simp only [Except.ok.injEq] at h
          subst h
          by_cases hkl : strip key = l
          · subst hkl
            simp [hp, dictLookup_dictInsert_self]
          · simp [hp, hkl, dictLookup_dictInsert_ne st.1 (strip key) l n
              (fun hh => hkl hh.symm)]
  · rw [processToken_no_colon st item hmem] at h
    simp only [Except.ok.injEq] at h
    subst h
    have h0 : item.count ':' = 0 := List.count_eq_zero.mpr hmem
    have hlen : (splitOn ':' item).length = 1 := by rw [splitOn_length]; omega
    match hs : splitOn ':' item with
    | [] => rw [hs] at hlen; simp at hlen
    | a :: b :: ll => rw [hs] at hlen; simp at hlen
    | [a] => simp [tokenCount, hs]

/-- Running the loop, the final lookup of `l` is the last valid count a token
gave `l`, or the initial lookup when no token did. -/
theorem processTokens_lookup (items : List PyStr) (st st' : ParseState)
    (l : PyStr) (h : processTokens st items = .ok st') :
    dictLookup st'.1 l =
      match lastCount l items with
      | some v => some v
      | none => dictLookup st.1 l := by
  induction items generalizing st with
  | nil =>
    simp only [processTokens, Except.ok.injEq] at h
    subst h
    simp [lastCount]
  | cons item items ih =>
    rw [processTokens_cons] at h
    cases hp : processToken st item with
    | error e => rw [hp] at h; exact absurd h (by simp)
    | ok st₁ =>
      rw [hp] at h
      have hstep := processToken_lookup st st₁ item l hp
      have htail := ih st₁ h
      unfold lastCount
      cases hl : lastCount l items with
      | some v => rw [hl] at htail; simpa using htail
      | none =>
        rw [hl] at htail
        simp only at htail
        rw [htail, hstep]

/-! ## Claim theorems -/

/-- Claim C1, counterexample: the unit-mix token `"a:b:c"` (two separators)
makes the parser raise an uncaught `ValueError`, because the two-element
unpacking of `item.split(":")` happens outside the `try` block — refuting
"no token shape causes an unhandled exception". -/
theorem C1_counterexample :
    units_by_type_dict ("a:b:c".toList) = .error .valueError := by rfl

/-- Claim C1 (amended): each token containing exactly one separator is split
into a label and a count text at it, both trimmed, and an integer parse of the
count text is attempted, never raising; but a token containing two or more
separators raises an uncaught `ValueError`, so an input parses without
exception whenever each of its tokens contains at most one separator. -/
theorem C1_unit_mix_parse_amended :
    (∀ text : PyStr, (∀ item ∈ splitOn ',' text, item.count ':' ≤ 1) →
      ∃ r, units_by_type_dict text = .ok r) ∧
    (∀ (st : ParseState) (item key val : PyStr),
      splitOn ':' item = [key, val] →
      processToken st item =
        match pyInt (strip val) with
        | some n => .ok (dictInsert st.1 (strip key) n, st.2)
        | none => .ok (st.1, st.2 ++ [mkWarning (strip key) (strip val)])) ∧
    (∀ (st : ParseState) (item : PyStr), 2 ≤ item.count ':' →
      processToken st item = .error .valueError) :=
  ⟨fun _ h => processTokens_ok _ _ h, processToken_two_parts,
    processToken_multi_colon⟩

/-- Witness for C1 (amended) at concrete inputs. -/
theorem C1_unit_mix_parse_amended_witness :
    (∃ r, units_by_type_dict ("1BR:20,2BR:15".toList) = .ok r) ∧
    processToken ([], []) ("a:b:c".toList) = .error .valueError :=
  ⟨C1_unit_mix_parse_amended.1 ("1BR:20,2BR:15".toList) (by decide),
    C1_unit_mix_parse_amended.2.2 ([], []) ("a:b:c".toList) (by decide)⟩

/-- Claim C2, counterexample: a 200 response whose body is the valid JSON
array `[]` makes `get_census_data` raise an uncaught `IndexError` instead of
returning `"N/A"`; and a 304 (non-2xx) response with a well-formed body
returns the extracted value, not `"N/A"`. -/
theorem C2_counterexample :
    get_census_data (.response 200 (some (.arr []))) = .error .indexError ∧
    get_census_data (.response 304 (some (.arr
        [.arr [.str "NAME", .str "B19013_001E"],
         .arr [.str "Cook County", .str "72121"]]))) = .ok (.str "72121") :=
  ⟨rfl, rfl⟩

/-- Claim C2 (amended): `get_census_data` returns the fallback `"N/A"` and
never raises on a network error, on an HTTP status in [400, 600) (the statuses
`raise_for_status` turns into a caught exception), or on a body that is not
valid JSON; on any other status with a valid JSON body it extracts row index
1, column index 1, and that subscripting is unprotected, so a JSON body
lacking that shape raises an uncaught exception. -/
theorem C2_census_fallback_amended :
    get_census_data .requestError = .ok (.str "N/A") ∧
    (∀ (s : Nat) (b : Option Json), 400 ≤ s → s < 600 →
      get_census_data (.response s b) = .ok (.str "N/A")) ∧
    (∀ s : Nat, ¬ (400 ≤ s ∧ s < 600) →
      get_census_data (.response s none) = .ok (.str "N/A")) ∧
    (∀ (s : Nat) (r0 x0 x1 : Json) (cols rest : List Json),
      ¬ (400 ≤ s ∧ s < 600) →
      get_census_data
        (.response s (some (.arr (r0 :: .arr (x0 :: x1 :: cols) :: rest)))) =
        .ok x1) := by
  refine ⟨rfl, ?_, ?_, ?_⟩
  · intro s b h1 h2
    simp only [get_census_data]
    rw [if_pos ⟨h1, h2⟩]
  · intro s h
    simp only [get_census_data]
    rw [if_neg h]
  · intro s r0 x0 x1 cols rest h
    simp only [get_census_data]
    rw [if_neg h]
    rfl

/-- Witness for C2 (amended) at concrete transport outcomes. -/
theorem C2_census_fallback_amended_witness :
    get_census_data (.response 500 (some (.arr []))) = .ok (.str "N/A") ∧
    get_census_data (.response 200 none) = .ok (.str "N/A") ∧
    get_census_data (.response 200 (some (.arr
        [.arr [.str "NAME", .str "B19013_001E"],
         .arr [.str "X", .str "55000"]]))) = .ok (.str "55000") :=
  ⟨C2_census_fallback_amended.2.1 500 (some (.arr [])) (by decide) (by decide),
    C2_census_fallback_amended.2.2.1 200 (by decide),
    C2_census_fallback_amended.2.2.2 200 (.arr [.str "NAME", .str "B19013_001E"])
      (.str "X") (.str "55000") [] [] (by decide)⟩

/-- Claim C3: `roi` is exactly 0 when the total development cost is 0, and for
a nonzero total cost it equals `(condoSellout - totalCost) / totalCost * 100`
(exact rational arithmetic). -/
theorem C3_roi_formula :
    (∀ p : Int, roi p 0 = 0) ∧
    (∀ condo tc : Int, tc ≠ 0 →
      roi (profit condo tc) tc = (((condo : ℚ) - (tc : ℚ)) / (tc : ℚ)) * 100) := by
  constructor
  · intro p
    simp [roi]
  · intro condo tc h
    have h' : (tc : ℚ) ≠ 0 := Int.cast_ne_zero.mpr h
    simp only [roi, profit, ne_eq, h, not_false_eq_true, if_true]
    push_cast
    ring

/-- Witness for C3 at the spec's end-to-end figures. -/
theorem C3_roi_formula_witness :
    roi 7 0 = 0 ∧
    roi (profit 20000000 13000000) 13000000 =
      (((20000000 : ℚ) - (13000000 : ℚ)) / (13000000 : ℚ)) * 100 :=
  ⟨C3_roi_formula.1 7, C3_roi_formula.2 20000000 13000000 (by decide)⟩

/-- Claim C4: the rent-estimate fetch ignores both its arguments, surfaces the
fixed notice, and returns the constant 2500; it takes no transport outcome
because its body performs no network call. -/
theorem C4_zillow_stub :
    ∀ (property_address zillow_api_key : String),
      get_zillow_rent_zestimate property_address zillow_api_key =
        (2500, [zillowNotice]) :=
  fun _ _ => rfl

/-- Witness for C4 at a concrete address and key. -/
theorem C4_zillow_stub_witness :
    get_zillow_rent_zestimate "1600 Pennsylvania Ave" "key123" =
      (2500, [zillowNotice]) :=
  C4_zillow_stub "1600 Pennsylvania Ave" "key123"

/-- Claim C5: a token that splits into label and count text whose count fails
integer parsing leaves the accumulated dict untouched and appends exactly one
warning naming the trimmed label/value pair, and processing continues; on
"1BR:20,Studio:abc,2BR:15" the parser yields the two valid entries plus the
single warning about Studio/abc. -/
theorem C5_malformed_count :
    (∀ (st : ParseState) (item key val : PyStr),
      splitOn ':' item = [key, val] → pyInt (strip val) = none →
      processToken st item =
        .ok (st.1, st.2 ++ [mkWarning (strip key) (strip val)])) ∧
    units_by_type_dict ("1BR:20,Studio:abc,2BR:15".toList) =
      .ok ([("1BR".toList, 20), ("2BR".toList, 15)],
        ["Invalid value for Studio: abc".toList]) := by
  constructor
  · intro st item key val hs hp
    rw [processToken_two_parts st item key val hs, hp]
  · rfl

/-- Witness for C5 at the Studio/abc token. -/
theorem C5_malformed_count_witness :
    processToken ([("1BR".toList, 20)], []) ("Studio:abc".toList) =
      .ok ([("1BR".toList, 20)],
        [mkWarning (strip ("Studio".toList)) (strip ("abc".toList))]) :=
  C5_malformed_count.1 ([("1BR".toList, 20)], []) ("Studio:abc".toList)
    ("Studio".toList) ("abc".toList) (by decide) (by decide)

/-- Claim C6: a token without a separator is dropped silently — no warning, no
entry, state unchanged — and parsing "garbage" yields the empty dict with no
warning. -/
theorem C6_no_separator :
    (∀ (st : ParseState) (item : PyStr), ':' ∉ item →
      processToken st item = .ok st) ∧
    units_by_type_dict ("garbage".toList) = .ok ([], []) :=
  ⟨processToken_no_colon, rfl⟩

/-- Witness for C6 at the token "garbage". -/
theorem C6_no_separator_witness :
    processToken ([], []) ("garbage".toList) = .ok ([], []) :=
  C6_no_separator.1 ([], []) ("garbage".toList) (by decide)

/-- Claim C7: when the parse completes, the dict maps a label to the count of
the last token carrying that trimmed label with a valid count, and
"1BR:20,1BR:5" yields the single entry 1BR -> 5. -/
theorem C7_last_write_wins :
    (∀ (text : PyStr) (r : ParseState) (l : PyStr) (v : Int),
      units_by_type_dict text = .ok r →
      lastCount l (splitOn ',' text) = some v →
      dictLookup r.1 l = some v) ∧
    units_by_type_dict ("1BR:20,1BR:5".toList) =
      .ok ([("1BR".toList, 5)], []) := by
  constructor
  · intro text r l v h hl
    have hres := processTokens_lookup (splitOn ',' text) ([], []) r l h
    rw [hl] at hres
    exact hres
  · rfl

/-- Witness for C7 at the repeated-label input. -/
theorem C7_last_write_wins_witness :
    dictLookup [("1BR".toList, 5)] ("1BR".toList) = some 5 :=
  C7_last_write_wins.1 ("1BR:20,1BR:5".toList) ([("1BR".toList, 5)], [])
    ("1BR".toList) 5 (by rfl) (by rfl)

/-- Claim C8: for all non-negative inputs the total development cost is exactly
building square footage times cost per square foot plus conversion costs, and
the spec's example figures give 13000000. -/
theorem C8_total_cost_formula :
    (∀ b c k : Int, 0 ≤ b → 0 ≤ c → 0 ≤ k → total_cost b c k = b * c + k) ∧
    total_cost 50000 200 3000000 = 13000000 := by
  refine ⟨fun b c k _ _ _ => rfl, ?_⟩
  norm_num [total_cost]

/-- Witness for C8 at concrete non-negative inputs. -/
theorem C8_total_cost_formula_witness :
    total_cost 50000 200 3000000 = 50000 * 200 + 3000000 :=
  C8_total_cost_formula.1 50000 200 3000000 (by decide) (by decide) (by decide)

/-- Claim C9: the net operating income is exactly rental income minus operating
expenses, for all integer inputs, and it can come out negative. -/
theorem C9_noi_formula :
    (∀ r o : Int, noi r o = r - o) ∧ noi 400000 1200000 = -800000 ∧
      noi 400000 1200000 < 0 := by
  refine ⟨fun r o => rfl, by norm_num [noi], by norm_num [noi]⟩

/-- Witness for C9 at concrete inputs. -/
theorem C9_noi_formula_witness : noi 1200000 400000 = 1200000 - 400000 :=
  C9_noi_formula.1 1200000 400000

/-- Claim C10: the evaluation metrics depend only on the six numeric inputs —
two ambient states agreeing on those six produce identical results, whatever
the fetched income, rent estimate, narrative fields, list fields, unit mix,
commercial units or occupancy rate. -/
theorem C10_metrics_depend_only_on_six_inputs :
    ∀ i₁ i₂ : Inputs,
      i₁.bldg_sqft = i₂.bldg_sqft →
      i₁.cost_per_sqft = i₂.cost_per_sqft →
      i₁.conversion_costs = i₂.conversion_costs →
      i₁.rental_income = i₂.rental_income →
      i₁.operating_expenses = i₂.operating_expenses →
      i₁.condo_sellout = i₂.condo_sellout →
      evaluate i₁ = evaluate i₂ := by
  intro i₁ i₂ h1 h2 h3 h4 h5 h6
  simp only [evaluate, h1, h2, h3, h4, h5, h6]

/-- Witness for C10: two ambient states sharing the six numeric inputs but
differing in fetched income, rent, texts, lists, unit mix, commercial units
and occupancy evaluate identically. -/
theorem C10_metrics_depend_only_on_six_inputs_witness :
    evaluate
      { census_api_key := "k1", zillow_api_key := "z1", discovery := "a"
        validation := "b", creation := "c", relationship := "d"
        zoning := "R1", permitting := "fast", gov_programs := ["p1"]
        improvement_districts := ["d1"], cost_per_sqft := 200
        demographics := "urban", avg_income := .str "N/A"
        avg_dwelling_price_rent := 2500, property_address := "addr1"
        avg_dwelling_price_own := 350000, occupancy_rates := 92
        net_migration := "high", bldg_sqft := 50000
        units_by_type := [("1BR".toList, 20)], commercial_units := 3
        conversion_costs := 3000000, rental_income := 1200000
        operating_expenses := 400000, condo_sellout := 20000000 } =
    evaluate
      { census_api_key := "k2", zillow_api_key := "z2", discovery := "x"
        validation := "y", creation := "z", relationship := "w"
        zoning := "C2", permitting := "slow", gov_programs := []
        improvement_districts := [], cost_per_sqft := 200
        demographics := "rural", avg_income := .num 85000
        avg_dwelling_price_rent := 9999, property_address := "addr2"
        avg_dwelling_price_own := 1, occupancy_rates := 5
        net_migration := "low", bldg_sqft := 50000
        units_by_type := [], commercial_units := 7
        conversion_costs := 3000000, rental_income := 1200000
        operating_expenses := 400000, condo_sellout := 20000000 } :=
  C10_metrics_depend_only_on_six_inputs _ _ rfl rfl rfl rfl rfl rfl

end PropertyEval
